import Mathlib

/-!
Shallow embedding of the VeinView AR backend (Django project
`backend_veinview_ar`, apps `placa`, `profesor` and `RA`).

Modelling conventions:
* Python floats are modelled as exact rationals (`ℚ`); timestamps are
  rationals counting seconds.
* Database tables are Lean lists; a Django `Model.save` / queryset
  operation becomes a pure function returning the updated row / table.
* Nondeterministic inputs of the code (the current time `timezone.now()`,
  a fresh `secrets.token_urlsafe(48)` credential, primary keys chosen by
  the database) are passed to the embedded functions as explicit
  arguments.
* A Django HTTP response is modelled by a small inductive type carrying
  exactly the payload fields the claims talk about.
-/

/-- Python `int(x)` applied to a float: truncation toward zero. -/
def pyInt (q : ℚ) : ℤ := if 0 ≤ q then ⌊q⌋ else ⌈q⌉

/-- Python `round(x, 2)`: round to two decimal places, ties to the even
hundredth (Python's round-half-to-even, on the exact rational value). -/
def pyRound2 (q : ℚ) : ℚ :=
  (if 100 * q - ⌊100 * q⌋ < 1/2 then ((⌊100 * q⌋ : ℤ) : ℚ)
   else if 1/2 < 100 * q - ⌊100 * q⌋ then ((⌊100 * q⌋ + 1 : ℤ) : ℚ)
   else if ⌊100 * q⌋ % 2 = 0 then ((⌊100 * q⌋ : ℤ) : ℚ)
   else ((⌊100 * q⌋ + 1 : ℤ) : ℚ)) / 100

/-- `placa.models.DatosSensor`: one stored sensor reading.  All float
columns are kept; the foreign keys `practica` and `dispositivo` are the
row ids they point at.  (The `timestamp` / `ip_origen` metadata columns
play no role in any claim and are omitted.) -/
structure DatosSensor where
  practica : Nat
  dispositivo : Nat
  aceleracion_x : ℚ
  aceleracion_y : ℚ
  aceleracion_z : ℚ
  giroscopio_x : ℚ
  giroscopio_y : ℚ
  giroscopio_z : ℚ
  angulo_pitch : ℚ
  angulo_roll : ℚ
  angulo_yaw : ℚ
  fuerza : ℚ
  presion : Option ℚ
  tecnica_correcta : Bool
  deriving DecidableEq, Repr

/-- `DatosSensor.save`: before persisting, the model recomputes
`tecnica_correcta = (10 <= angulo_pitch <= 30 and 50 <= fuerza <= 300)`
from the row's own values. -/
def DatosSensor.save (d : DatosSensor) : DatosSensor :=
  { d with tecnica_correcta :=
      decide (10 ≤ d.angulo_pitch ∧ d.angulo_pitch ≤ 30 ∧
              50 ≤ d.fuerza ∧ d.fuerza ≤ 300) }

/-- Claim C1: for every stored sensor reading, the persisted boolean
`tecnica_correcta` equals `(10 ≤ pitch ≤ 30) AND (50 ≤ force ≤ 300)`,
computed from the reading's own pitch and force values at write time. -/
theorem tecnica_correcta_guardada (d : DatosSensor) :
    (d.save).tecnica_correcta = true ↔
      ((10 ≤ d.angulo_pitch ∧ d.angulo_pitch ≤ 30) ∧
       (50 ≤ d.fuerza ∧ d.fuerza ≤ 300)) := by
  simp [DatosSensor.save, and_assoc]

/-- The three states of `placa.models.PracticaActiva`. -/
inductive EstadoPractica
  | iniciada
  | pausada
  | finalizada
  deriving DecidableEq, Repr

/-- `placa.models.PracticaActiva`: one practice session of a student on
an ESP32 device.  Foreign keys are row ids; datetimes are rationals. -/
structure PracticaActiva where
  id : Nat
  estudiante : Nat
  dispositivo : Nat
  estado : EstadoPractica
  fecha_inicio : ℚ
  fecha_pausa : Option ℚ
  fecha_reanudacion : Option ℚ
  fecha_fin : Option ℚ
  duracion_total_segundos : ℤ
  numero_intentos : ℤ
  intentos_exitosos : ℤ
  precision_promedio : ℚ
  deriving DecidableEq, Repr

/-- `PracticaActiva.pausar`: if the practice is `iniciada`, move it to
`pausada`, stamp `fecha_pausa` and accumulate the elapsed stretch
(since `fecha_reanudacion` if set, else since `fecha_inicio`). -/
def PracticaActiva.pausar (ahora : ℚ) (p : PracticaActiva) : PracticaActiva :=
  if p.estado = .iniciada then
    let duracion : ℚ :=
      match p.fecha_reanudacion with
      | some r => ahora - r
      | none => ahora - p.fecha_inicio
    { p with estado := .pausada, fecha_pausa := some ahora,
             duracion_total_segundos := p.duracion_total_segundos + pyInt duracion }
  else p

/-- `PracticaActiva.reanudar`: if the practice is `pausada`, move it back
to `iniciada` and stamp `fecha_reanudacion`. -/
def PracticaActiva.reanudar (ahora : ℚ) (p : PracticaActiva) : PracticaActiva :=
  if p.estado = .pausada then
    { p with estado := .iniciada, fecha_reanudacion := some ahora }
  else p

/-- `PracticaActiva.calcular_metricas`: recompute `precision_promedio`
from the practice's readings (`datos` is `self.datos_sensores.all()`);
a reading counts as correct when pitch is in `[10, 30]` and force in
`[50, 300]`. -/
def PracticaActiva.calcular_metricas (datos : List DatosSensor)
    (p : PracticaActiva) : PracticaActiva :=
  if datos.isEmpty then p
  else
    let total_datos : ℕ := datos.length
    let datos_correctos : ℕ :=
      (datos.filter (fun d =>
        decide (10 ≤ d.angulo_pitch ∧ d.angulo_pitch ≤ 30 ∧
                50 ≤ d.fuerza ∧ d.fuerza ≤ 300))).length
    { p with precision_promedio :=
        if 0 < total_datos then (datos_correctos : ℚ) / (total_datos : ℚ) * 100
        else 0 }

/-- `PracticaActiva.finalizar`: if the practice is `iniciada` or
`pausada`, accumulate the running stretch (only when `iniciada`), move
to `finalizada`, stamp `fecha_fin` and recompute the final metrics.
Otherwise do nothing. -/
def PracticaActiva.finalizar (ahora : ℚ) (datos : List DatosSensor)
    (p : PracticaActiva) : PracticaActiva :=
  if p.estado = .iniciada ∨ p.estado = .pausada then
    let p1 :=
      if p.estado = .iniciada then
        let duracion : ℚ :=
          match p.fecha_reanudacion with
          | some r => ahora - r
          | none => ahora - p.fecha_inicio
        { p with duracion_total_segundos := p.duracion_total_segundos + pyInt duracion }
      else p
    ({ p1 with estado := .finalizada, fecha_fin := some ahora }).calcular_metricas datos
  else p

/-- Result of the PATCH state-update endpoint
(`PracticaActivaViewSet.partial_update` in `placa/views.py`):
either HTTP 400 for an unknown state string, or the updated practice. -/
inductive PatchEstadoResult
  | badRequest
  | ok (p : PracticaActiva)
  deriving DecidableEq, Repr

/-- `PracticaActivaViewSet.partial_update` (the PATCH state-update
endpoint): validates the requested state string, then dispatches to
`pausar` / `reanudar` / `finalizar` — or, in the fallback branch, sets
`estado` directly to the requested value and saves. -/
def PracticaActiva.patchEstado (nuevo_estado : String) (ahora : ℚ)
    (datos : List DatosSensor) (p : PracticaActiva) : PatchEstadoResult :=
  if nuevo_estado ∉ (["iniciada", "pausada", "finalizada"] : List String) then
    .badRequest
  else if nuevo_estado = "pausada" ∧ p.estado = .iniciada then
    .ok (p.pausar ahora)
  else if nuevo_estado = "iniciada" ∧ p.estado = .pausada then
    .ok (p.reanudar ahora)
  else if nuevo_estado = "finalizada" then
    .ok (p.finalizar ahora datos)
  else
    .ok { p with estado :=
      match nuevo_estado with
      | "pausada" => .pausada
      | "finalizada" => .finalizada
      | _ => .iniciada }

/-- A finished practice, used as the concrete counterexample input. -/
def practicaFinalizadaEj : PracticaActiva :=
  { id := 7, estudiante := 1, dispositivo := 2, estado := .finalizada,
    fecha_inicio := 0, fecha_pausa := none, fecha_reanudacion := none,
    fecha_fin := some 100, duracion_total_segundos := 100,
    numero_intentos := 3, intentos_exitosos := 2, precision_promedio := 50 }

/-- Claim C2, counterexample: the finished state is NOT terminal under the
PATCH endpoint.  PATCHing a `finalizada` practice with requested state
`"pausada"` falls into the endpoint's fallback branch, which sets the
state directly: the stored state changes from `finalizada` to `pausada`. -/
theorem patch_pausada_escapa_finalizada :
    practicaFinalizadaEj.estado = EstadoPractica.finalizada ∧
    practicaFinalizadaEj.patchEstado "pausada" 200 []
      = .ok { practicaFinalizadaEj with estado := .pausada } := by
  constructor <;> rfl

/-- `calcular_metricas` only touches `precision_promedio`; the state is
preserved. -/
theorem calcular_metricas_estado (datos : List DatosSensor) (p : PracticaActiva) :
    (p.calcular_metricas datos).estado = p.estado := by
  unfold PracticaActiva.calcular_metricas
  split <;> rfl

/-- `finalizar` is a no-op on an already finished practice. -/
theorem finalizar_noop (p : PracticaActiva) (ahora : ℚ) (datos : List DatosSensor)
    (h : p.estado = .finalizada) : p.finalizar ahora datos = p := by
  simp [PracticaActiva.finalizar, h]

/-- `finalizar` on a running or paused practice leaves it finished. -/
theorem finalizar_estado (p : PracticaActiva) (ahora : ℚ) (datos : List DatosSensor)
    (h : p.estado = .iniciada ∨ p.estado = .pausada) :
    (p.finalizar ahora datos).estado = .finalizada := by
  unfold PracticaActiva.finalizar
  rw [if_pos h, calcular_metricas_estado]

/-- Claim C2 (amended): the finished state is terminal under the model
methods (`pausar`, `reanudar`, `finalizar`) and under a PATCH requesting
`"finalizada"`; but a PATCH requesting `"iniciada"` or `"pausada"` on a
`finalizada` practice takes the endpoint's fallback branch and sets the
state directly to the requested value. -/
theorem finalizada_terminal_en_modelo (p : PracticaActiva) (ahora : ℚ)
    (datos : List DatosSensor) (h : p.estado = .finalizada) :
    (p.pausar ahora).estado = .finalizada ∧
    (p.reanudar ahora).estado = .finalizada ∧
    (p.finalizar ahora datos).estado = .finalizada ∧
    p.patchEstado "finalizada" ahora datos = .ok p ∧
    p.patchEstado "iniciada" ahora datos = .ok { p with estado := .iniciada } ∧
    p.patchEstado "pausada" ahora datos = .ok { p with estado := .pausada } := by
  refine ⟨?_, ?_, ?_, ?_, ?_, ?_⟩
  · simp [PracticaActiva.pausar, h]
  · simp [PracticaActiva.reanudar, h]
  · rw [finalizar_noop p ahora datos h, h]
  · simp [PracticaActiva.patchEstado, h, finalizar_noop p ahora datos h]
  · simp [PracticaActiva.patchEstado, h]
  · simp [PracticaActiva.patchEstado, h]

/-- Witness for C2's amended theorem at a concrete finished practice. -/
theorem finalizada_terminal_en_modelo_witness :
    practicaFinalizadaEj.estado = EstadoPractica.finalizada ∧
    ((practicaFinalizadaEj.pausar 300).estado = .finalizada ∧
     (practicaFinalizadaEj.reanudar 300).estado = .finalizada ∧
     (practicaFinalizadaEj.finalizar 300 []).estado = .finalizada ∧
     practicaFinalizadaEj.patchEstado "finalizada" 300 [] = .ok practicaFinalizadaEj ∧
     practicaFinalizadaEj.patchEstado "iniciada" 300 []
       = .ok { practicaFinalizadaEj with estado := .iniciada } ∧
     practicaFinalizadaEj.patchEstado "pausada" 300 []
       = .ok { practicaFinalizadaEj with estado := .pausada }) :=
  ⟨rfl, finalizada_terminal_en_modelo practicaFinalizadaEj 300 [] rfl⟩

/-- Claim C4: `finalizar` is idempotent in effect — a second call after a
practice has already been finished changes nothing (no duration is
double-counted, and the end timestamp and state are unchanged). -/
theorem finalizar_idempotente (p : PracticaActiva) (t1 t2 : ℚ)
    (d1 d2 : List DatosSensor) :
    (p.finalizar t1 d1).finalizar t2 d2 = p.finalizar t1 d1 := by
  by_cases h : p.estado = .iniciada ∨ p.estado = .pausada
  · exact finalizar_noop _ t2 d2 (finalizar_estado p t1 d1 h)
  · have hf : p.estado = .finalizada := by
      cases hc : p.estado <;> simp [hc] at h ⊢
    rw [finalizar_noop p t1 d1 hf, finalizar_noop p t2 d2 hf]

/-- Django `Avg` aggregate over a column: the arithmetic mean. -/
def promedio (l : List ℚ) : ℚ := l.sum / (l.length : ℚ)

/-- `profesor.models.ResumenPractica`: summary / evaluation of a finished
practice.  (`profesor`, `observaciones` and `fecha_evaluacion` play no
role in any claim and are omitted.) -/
structure ResumenPractica where
  practica : Nat
  total_datos_capturados : ℕ
  inclinacion_promedio : Option ℚ
  fuerza_promedio : Option ℚ
  fuerza_maxima : Option ℚ
  fuerza_minima : Option ℚ
  numero_intentos : ℤ
  intentos_exitosos : ℤ
  precision_porcentaje : ℚ
  tiempo_canalizacion : ℤ
  calificacion : Option ℚ
  tecnica_correcta : Bool
  angulo_adecuado : Bool
  presion_controlada : Bool
  deriving DecidableEq, Repr

/-- A freshly created summary row: the model's field defaults. -/
def ResumenPractica.nuevo (practica : Nat) : ResumenPractica :=
  { practica := practica, total_datos_capturados := 0,
    inclinacion_promedio := none, fuerza_promedio := none,
    fuerza_maxima := none, fuerza_minima := none,
    numero_intentos := 0, intentos_exitosos := 0,
    precision_porcentaje := 0, tiempo_canalizacion := 0,
    calificacion := none, tecnica_correcta := false,
    angulo_adecuado := false, presion_controlada := false }

/-- `ResumenPractica.calcular_estadisticas`: `practica` is `self.practica`
and `datos` is `DatosSensor.objects.filter(practica=self.practica)`.
If there are readings, store count, mean pitch, mean/max/min force, the
performance metrics copied from the practice, the accuracy percentage,
and the automatically evaluated criteria; otherwise do nothing.
(The Python `(x or 0)` guard on the two means equals `Option.getD 0`
here, since `x or 0` is `0` exactly when `x` is `None` or `0.0`.
`avg_roll` is computed by the source but never stored, so it is left
out.) -/
def ResumenPractica.calcular_estadisticas (practica : PracticaActiva)
    (datos : List DatosSensor) (r : ResumenPractica) : ResumenPractica :=
  if datos.isEmpty then r
  else
    let total : ℕ := datos.length
    let datos_correctos : ℕ :=
      (datos.filter (fun d => d.tecnica_correcta)).length
    let avg_pitch : ℚ := promedio (datos.map (fun d => d.angulo_pitch))
    let avg_fuerza : ℚ := promedio (datos.map (fun d => d.fuerza))
    let r1 : ResumenPractica := { r with
      total_datos_capturados := total,
      inclinacion_promedio := some avg_pitch,
      fuerza_promedio := some avg_fuerza,
      fuerza_maxima := (datos.map (fun d => d.fuerza)).max?,
      fuerza_minima := (datos.map (fun d => d.fuerza)).min?,
      numero_intentos := practica.numero_intentos,
      intentos_exitosos := practica.intentos_exitosos,
      tiempo_canalizacion := practica.duracion_total_segundos,
      precision_porcentaje :=
        if 0 < total then (datos_correctos : ℚ) / (total : ℚ) * 100 else 0 }
    let angulo_adecuado : Bool :=
      decide (10 ≤ r1.inclinacion_promedio.getD 0 ∧ r1.inclinacion_promedio.getD 0 ≤ 30)
    let presion_controlada : Bool :=
      decide (50 ≤ r1.fuerza_promedio.getD 0 ∧ r1.fuerza_promedio.getD 0 ≤ 300)
    { r1 with angulo_adecuado := angulo_adecuado,
              presion_controlada := presion_controlada,
              tecnica_correcta := angulo_adecuado && presion_controlada }

/-- `ResumenPractica.calcular_calificacion_automatica`: the automatic
grade out of 5.0 — returns `0.0` when no readings were captured; else
2.0 points scaled by accuracy, 1.5 (or 1.0 partial credit in a wider
band) for the angle criterion, likewise for the force criterion,
rounded to two decimals and stored in `calificacion`. -/
def ResumenPractica.calcular_calificacion_automatica
    (r : ResumenPractica) : ℚ × ResumenPractica :=
  if r.total_datos_capturados = 0 then (0, r)
  else
    let c1 : ℚ := r.precision_porcentaje / 100 * 2
    let c2 : ℚ :=
      if r.angulo_adecuado then 1.5
      else if 5 ≤ r.inclinacion_promedio.getD 0 ∧ r.inclinacion_promedio.getD 0 ≤ 35
      then 1 else 0
    let c3 : ℚ :=
      if r.presion_controlada then 1.5
      else if 30 ≤ r.fuerza_promedio.getD 0 ∧ r.fuerza_promedio.getD 0 ≤ 400
      then 1 else 0
    let calificacion := pyRound2 (c1 + c2 + c3)
    (calificacion, { r with calificacion := some calificacion })

/-- A sensor reading as stored by the ingestion path: created with the
given pitch and force, then run through `DatosSensor.save`. -/
def datoEj (pitch fuerza : ℚ) : DatosSensor :=
  DatosSensor.save
    { practica := 7, dispositivo := 2,
      aceleracion_x := 0, aceleracion_y := 0, aceleracion_z := 0,
      giroscopio_x := 0, giroscopio_y := 0, giroscopio_z := 0,
      angulo_pitch := pitch, angulo_roll := 0, angulo_yaw := 0,
      fuerza := fuerza, presion := none, tecnica_correcta := false }

/-- The spec's worked example: five readings with forces
100, 150, 200, 250, 300. -/
def datosEjemplo : List DatosSensor :=
  [datoEj 15 100, datoEj 20 150, datoEj 25 200, datoEj 5 250, datoEj 35 300]

/-- Claim C5: for a session with readings, the summary's aggregates are
the exact arithmetic mean of pitch, mean/max/min of force and
accuracy% = correct/count·100; on the worked example the forces
100,150,200,250,300 give mean 200, max 300, min 100; and with no
readings the (fresh) summary's accuracy stays 0. -/
theorem resumen_agregados_exactos (practica : PracticaActiva)
    (datos : List DatosSensor) (r : ResumenPractica) (h : datos ≠ []) :
    ((r.calcular_estadisticas practica datos).total_datos_capturados = datos.length ∧
     (r.calcular_estadisticas practica datos).inclinacion_promedio
       = some ((datos.map (fun d => d.angulo_pitch)).sum / (datos.length : ℚ)) ∧
     (r.calcular_estadisticas practica datos).fuerza_promedio
       = some ((datos.map (fun d => d.fuerza)).sum / (datos.length : ℚ)) ∧
     (r.calcular_estadisticas practica datos).fuerza_maxima
       = (datos.map (fun d => d.fuerza)).max? ∧
     (r.calcular_estadisticas practica datos).fuerza_minima
       = (datos.map (fun d => d.fuerza)).min? ∧
     (r.calcular_estadisticas practica datos).precision_porcentaje
       = ((datos.filter (fun d => d.tecnica_correcta)).length : ℚ)
           / (datos.length : ℚ) * 100) ∧
    (((ResumenPractica.nuevo 7).calcular_estadisticas practicaFinalizadaEj datosEjemplo).fuerza_promedio
       = some 200 ∧
     ((ResumenPractica.nuevo 7).calcular_estadisticas practicaFinalizadaEj datosEjemplo).fuerza_maxima
       = some 300 ∧
     ((ResumenPractica.nuevo 7).calcular_estadisticas practicaFinalizadaEj datosEjemplo).fuerza_minima
       = some 100) ∧
    ((ResumenPractica.nuevo 7).calcular_estadisticas practica []
       = ResumenPractica.nuevo 7 ∧
     (ResumenPractica.nuevo 7).precision_porcentaje = 0) := by
  refine ⟨?_, by
    norm_num [ResumenPractica.calcular_estadisticas, datosEjemplo, datoEj,
      DatosSensor.save, promedio, List.max?, List.min?], by exact ⟨rfl, rfl⟩⟩
  obtain ⟨a, l, rfl⟩ : ∃ a l, datos = a :: l := by
    cases datos with
    | nil => exact absurd rfl h
    | cons a l => exact ⟨a, l, rfl⟩
  simp [ResumenPractica.calcular_estadisticas, promedio]

/-- Witness for C5 at the concrete worked example. -/
theorem resumen_agregados_exactos_witness :
    datosEjemplo ≠ [] ∧
    ((((ResumenPractica.nuevo 7).calcular_estadisticas practicaFinalizadaEj datosEjemplo).total_datos_capturados = datosEjemplo.length ∧
      ((ResumenPractica.nuevo 7).calcular_estadisticas practicaFinalizadaEj datosEjemplo).inclinacion_promedio
        = some ((datosEjemplo.map (fun d => d.angulo_pitch)).sum / (datosEjemplo.length : ℚ)) ∧
      ((ResumenPractica.nuevo 7).calcular_estadisticas practicaFinalizadaEj datosEjemplo).fuerza_promedio
        = some ((datosEjemplo.map (fun d => d.fuerza)).sum / (datosEjemplo.length : ℚ)) ∧
      ((ResumenPractica.nuevo 7).calcular_estadisticas practicaFinalizadaEj datosEjemplo).fuerza_maxima
        = (datosEjemplo.map (fun d => d.fuerza)).max? ∧
      ((ResumenPractica.nuevo 7).calcular_estadisticas practicaFinalizadaEj datosEjemplo).fuerza_minima
        = (datosEjemplo.map (fun d => d.fuerza)).min? ∧
      ((ResumenPractica.nuevo 7).calcular_estadisticas practicaFinalizadaEj datosEjemplo).precision_porcentaje
        = ((datosEjemplo.filter (fun d => d.tecnica_correcta)).length : ℚ)
            / (datosEjemplo.length : ℚ) * 100) ∧
     (((ResumenPractica.nuevo 7).calcular_estadisticas practicaFinalizadaEj datosEjemplo).fuerza_promedio
        = some 200 ∧
      ((ResumenPractica.nuevo 7).calcular_estadisticas practicaFinalizadaEj datosEjemplo).fuerza_maxima
        = some 300 ∧
      ((ResumenPractica.nuevo 7).calcular_estadisticas practicaFinalizadaEj datosEjemplo).fuerza_minima
        = some 100) ∧
     ((ResumenPractica.nuevo 7).calcular_estadisticas practicaFinalizadaEj []
        = ResumenPractica.nuevo 7 ∧
      (ResumenPractica.nuevo 7).precision_porcentaje = 0)) :=
  ⟨by simp [datosEjemplo],
   resumen_agregados_exactos practicaFinalizadaEj datosEjemplo (ResumenPractica.nuevo 7)
     (by simp [datosEjemplo])⟩

/-- `pyRound2` never pushes a value that is at most 5 above 5. -/
theorem pyRound2_le_five (q : ℚ) (h : q ≤ 5) : pyRound2 q ≤ 5 := by
  have hfl : ⌊100 * q⌋ ≤ 500 := by
    have h2 : ⌊100 * q⌋ ≤ ⌊(500 : ℚ)⌋ := Int.floor_le_floor (by linarith)
    simpa using h2
  have hle : (⌊100 * q⌋ : ℚ) ≤ 100 * q := Int.floor_le _
  have hkey : ¬(100 * q - ⌊100 * q⌋ < 1/2) → ⌊100 * q⌋ + 1 ≤ 500 := by
    intro hc
    push_neg at hc
    by_contra hc2
    push_neg at hc2
    have h500 : ⌊100 * q⌋ = 500 := le_antisymm hfl (by omega)
    rw [h500] at hc
    push_cast at hc
    linarith
  unfold pyRound2
  rw [div_le_iff₀ (by norm_num : (0 : ℚ) < 100)]
  split_ifs with h1 h2 h3
  · calc ((⌊100 * q⌋ : ℤ) : ℚ) ≤ 500 := by exact_mod_cast hfl
      _ = 5 * 100 := by norm_num
  · calc ((⌊100 * q⌋ + 1 : ℤ) : ℚ) ≤ 500 := by exact_mod_cast hkey h1
      _ = 5 * 100 := by norm_num
  · calc ((⌊100 * q⌋ : ℤ) : ℚ) ≤ 500 := by exact_mod_cast hfl
      _ = 5 * 100 := by norm_num
  · calc ((⌊100 * q⌋ + 1 : ℤ) : ℚ) ≤ 500 := by exact_mod_cast hkey h1
      _ = 5 * 100 := by norm_num

/-- Claim C6: for a summary computed from at least one captured reading,
the automatic grade is `(accuracy%/100)·2.0`, plus `1.5` if the mean
pitch is in `[10,30]` (else `1.0` if in `[5,35]`, else `0`), plus `1.5`
if the mean force is in `[50,300]` (else `1.0` if in `[30,400]`, else
`0`), rounded to two decimals; the grade never exceeds `5.0`; and with
zero captured readings the grade is `0.0`. -/
theorem calificacion_automatica_correcta (practica : PracticaActiva)
    (datos : List DatosSensor) (r0 : ResumenPractica) (h : datos ≠ []) :
    ((r0.calcular_estadisticas practica datos).calcular_calificacion_automatica.1
      = pyRound2
          (((datos.filter (fun d => d.tecnica_correcta)).length : ℚ)
              / (datos.length : ℚ) * 100 / 100 * 2
            + (if 10 ≤ promedio (datos.map (fun d => d.angulo_pitch)) ∧
                    promedio (datos.map (fun d => d.angulo_pitch)) ≤ 30 then 1.5
               else if 5 ≤ promedio (datos.map (fun d => d.angulo_pitch)) ∧
                    promedio (datos.map (fun d => d.angulo_pitch)) ≤ 35 then 1 else 0)
            + (if 50 ≤ promedio (datos.map (fun d => d.fuerza)) ∧
                    promedio (datos.map (fun d => d.fuerza)) ≤ 300 then 1.5
               else if 30 ≤ promedio (datos.map (fun d => d.fuerza)) ∧
                    promedio (datos.map (fun d => d.fuerza)) ≤ 400 then 1 else 0)) ∧
     (r0.calcular_estadisticas practica datos).calcular_calificacion_automatica.1 ≤ 5) ∧
    ({ r0 with total_datos_capturados := 0 }
       : ResumenPractica).calcular_calificacion_automatica.1 = 0 := by
  obtain ⟨a, l, rfl⟩ := List.exists_cons_of_ne_nil h
  have hformula :
      (ResumenPractica.calcular_calificacion_automatica
        (ResumenPractica.calcular_estadisticas practica (a :: l) r0)).1
      = pyRound2
          ((((a :: l).filter (fun d => d.tecnica_correcta)).length : ℚ)
              / ((a :: l).length : ℚ) * 100 / 100 * 2
            + (if 10 ≤ promedio ((a :: l).map (fun d => d.angulo_pitch)) ∧
                    promedio ((a :: l).map (fun d => d.angulo_pitch)) ≤ 30 then 1.5
               else if 5 ≤ promedio ((a :: l).map (fun d => d.angulo_pitch)) ∧
                    promedio ((a :: l).map (fun d => d.angulo_pitch)) ≤ 35 then 1 else 0)
            + (if 50 ≤ promedio ((a :: l).map (fun d => d.fuerza)) ∧
                    promedio ((a :: l).map (fun d => d.fuerza)) ≤ 300 then 1.5
               else if 30 ≤ promedio ((a :: l).map (fun d => d.fuerza)) ∧
                    promedio ((a :: l).map (fun d => d.fuerza)) ≤ 400 then 1 else 0)) := by
    simp [ResumenPractica.calcular_estadisticas,
      ResumenPractica.calcular_calificacion_automatica]
  refine ⟨⟨hformula, ?_⟩, rfl⟩
  rw [hformula]
  apply pyRound2_le_five
  have hlen : (0 : ℚ) < ((a :: l).length : ℚ) := by
    exact_mod_cast Nat.succ_pos l.length
  have hfilter : ((((a :: l).filter (fun d => d.tecnica_correcta)).length : ℕ) : ℚ)
      ≤ (((a :: l).length : ℕ) : ℚ) := by
    exact_mod_cast List.length_filter_le _ _
  have hdiv : (((a :: l).filter (fun d => d.tecnica_correcta)).length : ℚ)
      / ((a :: l).length : ℚ) ≤ 1 := by
    rw [div_le_one hlen]
    exact hfilter
  have hacc : (((a :: l).filter (fun d => d.tecnica_correcta)).length : ℚ)
      / ((a :: l).length : ℚ) * 100 / 100 * 2 ≤ 2 := by
    have heq : (((a :: l).filter (fun d => d.tecnica_correcta)).length : ℚ)
        / ((a :: l).length : ℚ) * 100 / 100 * 2
        = (((a :: l).filter (fun d => d.tecnica_correcta)).length : ℚ)
            / ((a :: l).length : ℚ) * 2 := by ring
    rw [heq]
    linarith
  split_ifs <;> linarith [hdiv, hacc]

/-- Witness for C6 at the concrete worked example. -/
theorem calificacion_automatica_correcta_witness :
    datosEjemplo ≠ [] ∧
    ((((ResumenPractica.nuevo 7).calcular_estadisticas practicaFinalizadaEj datosEjemplo).calcular_calificacion_automatica.1
       = pyRound2
           (((datosEjemplo.filter (fun d => d.tecnica_correcta)).length : ℚ)
               / (datosEjemplo.length : ℚ) * 100 / 100 * 2
             + (if 10 ≤ promedio (datosEjemplo.map (fun d => d.angulo_pitch)) ∧
                     promedio (datosEjemplo.map (fun d => d.angulo_pitch)) ≤ 30 then 1.5
                else if 5 ≤ promedio (datosEjemplo.map (fun d => d.angulo_pitch)) ∧
                     promedio (datosEjemplo.map (fun d => d.angulo_pitch)) ≤ 35 then 1 else 0)
             + (if 50 ≤ promedio (datosEjemplo.map (fun d => d.fuerza)) ∧
                     promedio (datosEjemplo.map (fun d => d.fuerza)) ≤ 300 then 1.5
                else if 30 ≤ promedio (datosEjemplo.map (fun d => d.fuerza)) ∧
                     promedio (datosEjemplo.map (fun d => d.fuerza)) ≤ 400 then 1 else 0)) ∧
      ((ResumenPractica.nuevo 7).calcular_estadisticas practicaFinalizadaEj datosEjemplo).calcular_calificacion_automatica.1 ≤ 5) ∧
     ({ ResumenPractica.nuevo 7 with total_datos_capturados := 0 }
        : ResumenPractica).calcular_calificacion_automatica.1 = 0) :=
  ⟨by simp [datosEjemplo],
   calificacion_automatica_correcta practicaFinalizadaEj datosEjemplo
     (ResumenPractica.nuevo 7) (by simp [datosEjemplo])⟩

/-- `placa.models.DispositivoESP32`: a registered ESP32 capture device.
(`fecha_registro`, `ultima_conexion` and `ip_address` are bookkeeping
columns with no role in any claim and are omitted.) -/
structure DispositivoESP32 where
  id : Nat
  nombre : String
  mac_address : String
  api_key : String
  activo : Bool
  deriving DecidableEq, Repr

/-- `DispositivoESP32.save`: generate the credential only when the row
has none yet (`freshKey` is the `secrets.token_urlsafe(48)` value drawn
at that moment); an existing credential is never overwritten. -/
def DispositivoESP32.save (freshKey : String) (d : DispositivoESP32) : DispositivoESP32 :=
  if d.api_key = "" then { d with api_key := freshKey } else d

/-- The `placa` app's database state. -/
structure PlacaState where
  dispositivos : List DispositivoESP32
  practicas : List PracticaActiva
  datos : List DatosSensor
  deriving DecidableEq, Repr

/-- `placa.views.verificar_api_key`: look up an active device by the
presented credential; `none` models the 401 response (missing key,
unknown key, or inactive device).  The source also refreshes the
device's `ultima_conexion` / `ip_address` bookkeeping columns, which
are omitted from the embedded row. -/
def verificar_api_key (api_key : Option String) (st : PlacaState) :
    Option DispositivoESP32 :=
  match api_key with
  | none => none
  | some k => st.dispositivos.find? (fun d => decide (d.api_key = k) && d.activo)

/-- Response of `placa.views.registrar_dispositivo`. -/
inductive RegistroResult
  | badRequest
  | creado (api_key : String)
  | yaExiste (api_key : String)
  deriving DecidableEq, Repr

/-- The `api_key` field of the registration response, when any. -/
def RegistroResult.api_key? : RegistroResult → Option String
  | .badRequest => none
  | .creado k => some k
  | .yaExiste k => some k

/-- Python `str.upper()` as used on MAC addresses: uppercase every
character. -/
def pyUpper (s : String) : String := ⟨s.data.map Char.toUpper⟩

/-- `placa.views.registrar_dispositivo`: uppercase the MAC, reject an
empty one, then `get_or_create` on `mac_address` — an existing device is
returned unchanged (HTTP 200) with its stored credential, a new one is
created (HTTP 201) and `DispositivoESP32.save` draws its credential. -/
def registrar_dispositivo (mac_address nombre : String) (freshKey : String)
    (nextId : Nat) (st : PlacaState) : RegistroResult × PlacaState :=
  let mac := pyUpper mac_address
  if mac = "" then (.badRequest, st)
  else
    match st.dispositivos.find? (fun d => decide (d.mac_address = mac)) with
    | some dispositivo => (.yaExiste dispositivo.api_key, st)
    | none =>
      let dispositivo := DispositivoESP32.save freshKey
        { id := nextId, nombre := nombre, mac_address := mac,
          api_key := "", activo := true }
      (.creado dispositivo.api_key,
       { st with dispositivos := st.dispositivos ++ [dispositivo] })

/-- Sensor payload accepted by `DatosSensorCreateSerializer` (all fields
required floats, `presion` optional). -/
structure PayloadSensor where
  ax : ℚ
  ay : ℚ
  az : ℚ
  gx : ℚ
  gy : ℚ
  gz : ℚ
  pitch : ℚ
  roll : ℚ
  yaw : ℚ
  fuerza : ℚ
  presion : Option ℚ
  deriving DecidableEq, Repr

/-- Response of `placa.views.enviar_datos_sensores`.  `badRequest`
carries the `puede_enviar_datos` flag of the 400 payload. -/
inductive EnvioResult
  | unauthorized
  | badRequest (puede_enviar_datos : Bool)
  | created (dato : DatosSensor)
  deriving DecidableEq, Repr

/-- `placa.views.enviar_datos_sensores`: authenticate the device, require
a practice of that device in state `iniciada` (a `pausada` or absent one
is rejected with 400 and `puede_enviar_datos: false`), then store the
reading through `DatosSensor.save`.  (Serializer validation of the
payload cannot fail in the embedding: every field is already a number.) -/
def enviar_datos_sensores (api_key : Option String) (payload : PayloadSensor)
    (st : PlacaState) : EnvioResult × PlacaState :=
  match verificar_api_key api_key st with
  | none => (.unauthorized, st)
  | some dispositivo =>
    match st.practicas.find? (fun p =>
        decide (p.dispositivo = dispositivo.id) &&
        decide (p.estado = EstadoPractica.iniciada)) with
    | none => (.badRequest false, st)
    | some practica_activa =>
      let dato := DatosSensor.save
        { practica := practica_activa.id, dispositivo := dispositivo.id,
          aceleracion_x := payload.ax, aceleracion_y := payload.ay,
          aceleracion_z := payload.az, giroscopio_x := payload.gx,
          giroscopio_y := payload.gy, giroscopio_z := payload.gz,
          angulo_pitch := payload.pitch, angulo_roll := payload.roll,
          angulo_yaw := payload.yaw, fuerza := payload.fuerza,
          presion := payload.presion, tecnica_correcta := false }
      (.created dato, { st with datos := st.datos ++ [dato] })

/-- Claim C7: an authenticated device with no practice in state
`iniciada` (only `pausada` ones, or none at all) has its reading
submission rejected with a 400 response carrying
`puede_enviar_datos: false`, and the stored set of readings (indeed the
whole state) is unchanged. -/
theorem envio_sin_practica_rechazado (api_key : Option String)
    (payload : PayloadSensor) (st : PlacaState) (dispositivo : DispositivoESP32)
    (hauth : verificar_api_key api_key st = some dispositivo)
    (hnone : st.practicas.find? (fun p =>
        decide (p.dispositivo = dispositivo.id) &&
        decide (p.estado = EstadoPractica.iniciada)) = none) :
    enviar_datos_sensores api_key payload st = (.badRequest false, st) ∧
    (enviar_datos_sensores api_key payload st).2.datos = st.datos := by
  have hmain : enviar_datos_sensores api_key payload st = (.badRequest false, st) := by
    simp [enviar_datos_sensores, hauth, hnone]
  exact ⟨hmain, by rw [hmain]⟩

/-- A registered, active device used in concrete instances. -/
def dispositivoEj : DispositivoESP32 :=
  { id := 2, nombre := "VeinView-01", mac_address := "AA:BB:CC:DD:EE:FF",
    api_key := "clave-1", activo := true }

/-- A paused practice of that device. -/
def practicaPausadaEj : PracticaActiva :=
  { id := 9, estudiante := 1, dispositivo := 2, estado := .pausada,
    fecha_inicio := 0, fecha_pausa := some 10, fecha_reanudacion := none,
    fecha_fin := none, duracion_total_segundos := 10,
    numero_intentos := 0, intentos_exitosos := 0, precision_promedio := 0 }

/-- Database with one device whose only practice is paused. -/
def estadoPlacaEj : PlacaState :=
  { dispositivos := [dispositivoEj], practicas := [practicaPausadaEj], datos := [] }

/-- A well-formed sensor payload. -/
def payloadEj : PayloadSensor :=
  { ax := 0, ay := 0, az := 10, gx := 2, gy := -1, gz := 0,
    pitch := 15, roll := -10, yaw := 5, fuerza := 250, presion := none }

/-- Witness for C7: the paused-only database rejects the submission. -/
theorem envio_sin_practica_rechazado_witness :
    verificar_api_key (some "clave-1") estadoPlacaEj = some dispositivoEj ∧
    estadoPlacaEj.practicas.find? (fun p =>
        decide (p.dispositivo = dispositivoEj.id) &&
        decide (p.estado = EstadoPractica.iniciada)) = none ∧
    (enviar_datos_sensores (some "clave-1") payloadEj estadoPlacaEj
       = (.badRequest false, estadoPlacaEj) ∧
     (enviar_datos_sensores (some "clave-1") payloadEj estadoPlacaEj).2.datos
       = estadoPlacaEj.datos) :=
  ⟨by decide, by decide,
   envio_sin_practica_rechazado (some "clave-1") payloadEj estadoPlacaEj
     dispositivoEj (by decide) (by decide)⟩

/-- Appending an element that satisfies the predicate to a list on which
`find?` fails makes `find?` return exactly that element. -/
theorem find?_append_singleton {α : Type} (p : α → Bool) (l : List α) (a : α)
    (h : l.find? p = none) (ha : p a = true) : (l ++ [a]).find? p = some a := by
  induction l with
  | nil => simp [List.find?, ha]
  | cons x xs ih =>
    by_cases hx : p x
    · rw [List.find?_cons_of_pos _ hx] at h
      exact absurd h (by simp)
    · rw [List.find?_cons_of_neg _ hx] at h
      rw [List.cons_append, List.find?_cons_of_neg _ hx]
      exact ih h

/-- Claim C8: device registration is idempotent — registering the same
MAC a second time leaves the database unchanged (no new device row) and
returns the same credential, which the first registration did return. -/
theorem registro_dispositivo_idempotente (st : PlacaState)
    (mac n1 n2 k1 k2 : String) (id1 id2 : Nat) (h : pyUpper mac ≠ "") :
    (registrar_dispositivo mac n2 k2 id2
        (registrar_dispositivo mac n1 k1 id1 st).2).2
      = (registrar_dispositivo mac n1 k1 id1 st).2 ∧
    (registrar_dispositivo mac n2 k2 id2
        (registrar_dispositivo mac n1 k1 id1 st).2).1.api_key?
      = (registrar_dispositivo mac n1 k1 id1 st).1.api_key? ∧
    (registrar_dispositivo mac n1 k1 id1 st).1.api_key? ≠ none := by
  cases hfind : st.dispositivos.find? (fun d => decide (d.mac_address = pyUpper mac)) with
  | some d =>
    have h1 : registrar_dispositivo mac n1 k1 id1 st = (.yaExiste d.api_key, st) := by
      simp [registrar_dispositivo, h, hfind]
    rw [h1]
    have h2 : registrar_dispositivo mac n2 k2 id2 st = (.yaExiste d.api_key, st) := by
      simp [registrar_dispositivo, h, hfind]
    rw [h2]
    exact ⟨rfl, rfl, by simp [RegistroResult.api_key?]⟩
  | none =>
    have h1 : registrar_dispositivo mac n1 k1 id1 st
        = (.creado k1,
           { st with dispositivos := st.dispositivos ++
               [{ id := id1, nombre := n1, mac_address := pyUpper mac,
                  api_key := k1, activo := true }] }) := by
      simp [registrar_dispositivo, h, hfind, DispositivoESP32.save]
    rw [h1]
    have hfind2 : (st.dispositivos ++
        [({ id := id1, nombre := n1, mac_address := pyUpper mac,
            api_key := k1, activo := true } : DispositivoESP32)]).find?
          (fun d => decide (d.mac_address = pyUpper mac))
        = some ({ id := id1, nombre := n1, mac_address := pyUpper mac,
                  api_key := k1, activo := true } : DispositivoESP32) := by
      exact find?_append_singleton _ _ _ hfind (by simp)
    have h2 : registrar_dispositivo mac n2 k2 id2
        { st with dispositivos := st.dispositivos ++
            [{ id := id1, nombre := n1, mac_address := pyUpper mac,
               api_key := k1, activo := true }] }
        = (.yaExiste k1,
           { st with dispositivos := st.dispositivos ++
               [{ id := id1, nombre := n1, mac_address := pyUpper mac,
                  api_key := k1, activo := true }] }) := by
      simp [registrar_dispositivo, h, hfind2]
    rw [h2]
    exact ⟨rfl, rfl, by simp [RegistroResult.api_key?]⟩

/-- Witness for C8: registering `aa:bb:cc:dd:ee:01` twice on an empty
database. -/
theorem registro_dispositivo_idempotente_witness :
    pyUpper "aa:bb:cc:dd:ee:01" ≠ "" ∧
    ((registrar_dispositivo "aa:bb:cc:dd:ee:01" "VeinView-02" "clave-2" 3
        (registrar_dispositivo "aa:bb:cc:dd:ee:01" "VeinView-02" "clave-9" 4
          { dispositivos := [], practicas := [], datos := [] }).2).2
      = (registrar_dispositivo "aa:bb:cc:dd:ee:01" "VeinView-02" "clave-9" 4
          { dispositivos := [], practicas := [], datos := [] }).2 ∧
     (registrar_dispositivo "aa:bb:cc:dd:ee:01" "VeinView-02" "clave-2" 3
        (registrar_dispositivo "aa:bb:cc:dd:ee:01" "VeinView-02" "clave-9" 4
          { dispositivos := [], practicas := [], datos := [] }).2).1.api_key?
      = (registrar_dispositivo "aa:bb:cc:dd:ee:01" "VeinView-02" "clave-9" 4
          { dispositivos := [], practicas := [], datos := [] }).1.api_key? ∧
     (registrar_dispositivo "aa:bb:cc:dd:ee:01" "VeinView-02" "clave-9" 4
          { dispositivos := [], practicas := [], datos := [] }).1.api_key? ≠ none) :=
  ⟨by decide,
   registro_dispositivo_idempotente
     { dispositivos := [], practicas := [], datos := [] }
     "aa:bb:cc:dd:ee:01" "VeinView-02" "VeinView-02" "clave-9" "clave-2" 4 3
     (by decide)⟩

/-- The five states of `RA.models.SesionRA`. -/
inductive EstadoRA
  | conectando
  | activa
  | pausada
  | desconectada
  | error
  deriving DecidableEq, Repr

/-- `RA.models.SesionRA`: an augmented-reality viewing session.
(`ip_address`, `modo_visualizacion`, `escala_modelo` and `opacidad` are
configuration columns with no role in any claim and are omitted.) -/
structure SesionRA where
  id : Nat
  estudiante : Nat
  practica : Option Nat
  session_token : String
  dispositivo_ra : String
  estado : EstadoRA
  fecha_inicio : ℚ
  fecha_ultima_actividad : ℚ
  fecha_fin : Option ℚ
  total_datos_recibidos : ℤ
  latencia_promedio : ℚ
  deriving DecidableEq, Repr

/-- `SesionRA.esta_activa`: a session counts as alive only when its state
is `activa` or `pausada` and its last activity is less than 30 seconds
old. -/
def SesionRA.esta_activa (ahora : ℚ) (s : SesionRA) : Bool :=
  if ¬(s.estado = .activa ∨ s.estado = .pausada) then false
  else decide (ahora - s.fecha_ultima_actividad < 30)

/-- `RA.models.EventoRA`: a logged event of a session. -/
structure EventoRA where
  sesion : Nat
  tipo : String
  descripcion : String
  deriving DecidableEq, Repr

/-- The `RA` app's database state. -/
structure RAState where
  sesiones : List SesionRA
  eventos : List EventoRA
  deriving DecidableEq, Repr

/-- Outcome of `RA.views.verificar_session_token`: the three 401 causes,
or the session (with its activity timestamp just refreshed). -/
inductive VerificacionToken
  | sinToken
  | tokenInvalido
  | sesionExpirada
  | ok (s : SesionRA)
  deriving DecidableEq, Repr

/-- `RA.views.verificar_session_token`: look the session up by token,
reject (401) a missing token, an unknown token, or a session that fails
`esta_activa`; on success refresh `fecha_ultima_actividad` and return
the session.  Only the `ok` outcome modifies the stored sessions. -/
def verificar_session_token (session_token : Option String) (ahora : ℚ)
    (st : RAState) : VerificacionToken × RAState :=
  match session_token with
  | none => (.sinToken, st)
  | some tk =>
    match st.sesiones.find? (fun s => decide (s.session_token = tk)) with
    | none => (.tokenInvalido, st)
    | some sesion =>
      if ¬ sesion.esta_activa ahora then (.sesionExpirada, st)
      else
        (.ok { sesion with fecha_ultima_actividad := ahora },
         { st with sesiones := st.sesiones.map (fun s =>
             if s.session_token = tk
             then { sesion with fecha_ultima_actividad := ahora } else s) })

/-- Response of `RA.views.registrar_evento_ra`: 401 from the token check,
or the created event id. -/
inductive RegistroEvento
  | unauthorized
  | creado (evento_id : Nat)
  deriving DecidableEq, Repr

/-- `RA.views.registrar_evento_ra`: a write endpoint guarded by
`verificar_session_token`; on success it appends an `EventoRA` row. -/
def registrar_evento_ra (session_token : Option String)
    (tipo descripcion : String) (ahora : ℚ) (st : RAState) :
    RegistroEvento × RAState :=
  match verificar_session_token session_token ahora st with
  | (.ok sesion, st1) =>
    (.creado st1.eventos.length,
     { st1 with eventos := st1.eventos ++ [⟨sesion.id, tipo, descripcion⟩] })
  | (_, st1) => (.unauthorized, st1)

/-- Response of `RA.views.heartbeat_ra`. -/
inductive HeartbeatResult
  | ok (sesion_activa : Bool) (latencia_promedio : ℚ)
  | notFound
  deriving DecidableEq, Repr

/-- `RA.views.heartbeat_ra`: looks the session up by token directly (NOT
through `verificar_session_token`), refreshes
`fecha_ultima_actividad`, and — only when the reported client latency is
truthy in Python (present and nonzero) — folds it into
`latencia_promedio` (first stored value directly when the stored average
is 0, else the 0.8/0.2 moving average).  Responds 404 only for an
unknown token. -/
def heartbeat_ra (session_token : String) (latencia_cliente : Option ℚ)
    (ahora : ℚ) (st : RAState) : HeartbeatResult × RAState :=
  match st.sesiones.find? (fun s => decide (s.session_token = session_token)) with
  | none => (.notFound, st)
  | some sesion =>
    let s1 := { sesion with fecha_ultima_actividad := ahora }
    let s2 :=
      match latencia_cliente with
      | some latencia_nueva =>
        if latencia_nueva ≠ 0 then
          if s1.latencia_promedio = 0 then
            { s1 with latencia_promedio := latencia_nueva }
          else
            { s1 with latencia_promedio :=
                s1.latencia_promedio * 0.8 + latencia_nueva * 0.2 }
        else s1
      | none => s1
    (.ok true (pyRound2 s2.latencia_promedio),
     { st with sesiones := st.sesiones.map (fun s =>
         if s.session_token = session_token then s2 else s) })

/-- `RA.views.conectar_ra`: first mark every session of the student whose
state is in `{conectando, activa, pausada}` as `desconectada`, stamping
`fecha_fin`; then create the new session in state `activa` and log a
`conexion` event.  (`newId` / `newToken` are the database id and the
fresh `secrets` token of the new row.) -/
def conectar_ra (estudiante : Nat) (practica : Option Nat)
    (dispositivo_ra : String) (newId : Nat) (newToken : String) (ahora : ℚ)
    (st : RAState) : RAState × SesionRA :=
  let cerradas := st.sesiones.map (fun s =>
    if s.estudiante = estudiante ∧
       (s.estado = .conectando ∨ s.estado = .activa ∨ s.estado = .pausada)
    then { s with estado := .desconectada, fecha_fin := some ahora }
    else s)
  let nueva : SesionRA :=
    { id := newId, estudiante := estudiante, practica := practica,
      session_token := newToken, dispositivo_ra := dispositivo_ra,
      estado := .activa, fecha_inicio := ahora,
      fecha_ultima_actividad := ahora, fecha_fin := none,
      total_datos_recibidos := 0, latencia_promedio := 0 }
  ({ st with sesiones := cerradas ++ [nueva],
             eventos := st.eventos ++
               [⟨newId, "conexion",
                 "Conexion establecida desde " ++ dispositivo_ra⟩] },
   nueva)

/-- Claim C3 (amended): a request guarded by `verificar_session_token`
(stream, practice-state, event logging) whose token names a session that
fails the aliveness check — wrong state or 30 s of inactivity — is
rejected as unauthorized and leaves the stored sessions unchanged; the
heartbeat and disconnect endpoints, however, look the session up
directly and are not subject to that check. -/
theorem token_expirado_rechazado (tk tipo descripcion : String) (ahora : ℚ)
    (st : RAState) (s : SesionRA)
    (hfind : st.sesiones.find? (fun x => decide (x.session_token = tk)) = some s)
    (hdead : s.esta_activa ahora = false) :
    verificar_session_token (some tk) ahora st = (.sesionExpirada, st) ∧
    registrar_evento_ra (some tk) tipo descripcion ahora st
      = (.unauthorized, st) := by
  have h1 : verificar_session_token (some tk) ahora st = (.sesionExpirada, st) := by
    simp [verificar_session_token, hfind, hdead]
  exact ⟨h1, by simp [registrar_evento_ra, h1]⟩

/-- A session whose state is alive but whose last activity is 100 s old:
it fails the 30-second aliveness window at time 100. -/
def sesionExpiradaEj : SesionRA :=
  { id := 4, estudiante := 1, practica := some 7, session_token := "token-ra",
    dispositivo_ra := "HoloLens 2", estado := .activa, fecha_inicio := 0,
    fecha_ultima_actividad := 0, fecha_fin := none,
    total_datos_recibidos := 0, latencia_promedio := 0 }

/-- Witness for C3's amended theorem at the concrete expired session. -/
theorem token_expirado_rechazado_witness :
    ({ sesiones := [sesionExpiradaEj], eventos := [] }
        : RAState).sesiones.find?
      (fun x => decide (x.session_token = "token-ra")) = some sesionExpiradaEj ∧
    sesionExpiradaEj.esta_activa 100 = false ∧
    (verificar_session_token (some "token-ra") 100
        { sesiones := [sesionExpiradaEj], eventos := [] }
      = (.sesionExpirada, { sesiones := [sesionExpiradaEj], eventos := [] }) ∧
     registrar_evento_ra (some "token-ra") "calibracion" "x" 100
        { sesiones := [sesionExpiradaEj], eventos := [] }
      = (.unauthorized, { sesiones := [sesionExpiradaEj], eventos := [] })) :=
  ⟨by simp [sesionExpiradaEj],
   by norm_num [SesionRA.esta_activa, sesionExpiradaEj],
   token_expirado_rechazado "token-ra" "calibracion" "x" 100
     { sesiones := [sesionExpiradaEj], eventos := [] } sesionExpiradaEj
     (by simp [sesionExpiradaEj])
     (by norm_num [SesionRA.esta_activa, sesionExpiradaEj])⟩

/-- Claim C3, counterexample: NOT every read/write request presenting the
token of a session that fails the aliveness check is rejected.  The
heartbeat endpoint accepts the token of a session that is 100 s
inactive (which `esta_activa` rejects), reports it as active, and
modifies the session by refreshing its activity timestamp. -/
theorem heartbeat_acepta_sesion_expirada :
    sesionExpiradaEj.esta_activa 100 = false ∧
    heartbeat_ra "token-ra" none 100 { sesiones := [sesionExpiradaEj], eventos := [] }
      = (.ok true 0,
         { sesiones := [{ sesionExpiradaEj with fecha_ultima_actividad := 100 }],
           eventos := [] }) := by
  constructor
  · norm_num [SesionRA.esta_activa, sesionExpiradaEj]
  · norm_num [heartbeat_ra, sesionExpiradaEj, pyRound2]

/-- `find?` after a map that replaces exactly the rows matching the token
returns the replacement, provided the original `find?` matched and the
replacement still carries the token. -/
theorem find?_map_update (l : List SesionRA) (tk : String) (s2 s : SesionRA)
    (h : l.find? (fun x => decide (x.session_token = tk)) = some s)
    (h2 : s2.session_token = tk) :
    (l.map (fun x => if x.session_token = tk then s2 else x)).find?
      (fun x => decide (x.session_token = tk)) = some s2 := by
  induction l with
  | nil => simp at h
  | cons x xs ih =>
    by_cases hx : x.session_token = tk
    · simp [List.find?, hx, h2]
    · rw [List.find?_cons_of_neg _ (by simp [hx])] at h
      simp only [List.map_cons, if_neg hx]
      rw [List.find?_cons_of_neg _ (by simp [hx])]
      exact ih h

/-- The latency update as the amended claim states it: a nonzero sample
replaces a zero stored average and otherwise folds in with weights
0.8 / 0.2; a zero or absent sample changes nothing. -/
def nuevaLatencia (latencia_cliente : Option ℚ) (l0 : ℚ) : ℚ :=
  match latencia_cliente with
  | some lnew => if lnew = 0 then l0 else if l0 = 0 then lnew
                 else 0.8 * l0 + 0.2 * lnew
  | none => l0

/-- Claim C9 (amended): a heartbeat carrying a nonzero latency sample
`Lnew` updates the stored average to `Lnew` if the stored average was 0
and to `0.8·L0 + 0.2·Lnew` otherwise; a zero or absent sample leaves
the stored average unchanged.  The response always reports the stored
(rounded) average. -/
theorem heartbeat_suavizado_latencia (tk : String) (latencia_cliente : Option ℚ)
    (ahora : ℚ) (st : RAState) (s : SesionRA)
    (hfind : st.sesiones.find? (fun x => decide (x.session_token = tk)) = some s) :
    (heartbeat_ra tk latencia_cliente ahora st).2.sesiones.find?
        (fun x => decide (x.session_token = tk))
      = some { s with fecha_ultima_actividad := ahora,
                      latencia_promedio :=
                        nuevaLatencia latencia_cliente s.latencia_promedio } ∧
    (heartbeat_ra tk latencia_cliente ahora st).1
      = .ok true (pyRound2 (nuevaLatencia latencia_cliente s.latencia_promedio)) := by
  have htok : s.session_token = tk := by
    have := List.find?_some hfind
    simpa using this
  have hs2 : (heartbeat_ra tk latencia_cliente ahora st)
      = (.ok true (pyRound2 (nuevaLatencia latencia_cliente s.latencia_promedio)),
         { st with sesiones := st.sesiones.map (fun x =>
             if x.session_token = tk
             then { s with fecha_ultima_actividad := ahora,
                           latencia_promedio :=
                             nuevaLatencia latencia_cliente s.latencia_promedio }
             else x) }) := by
    unfold heartbeat_ra
    rw [hfind]
    cases latencia_cliente with
    | none => simp [nuevaLatencia]
    | some lnew =>
      by_cases hz : lnew = 0
      · simp [nuevaLatencia, hz]
      · by_cases hl0 : s.latencia_promedio = 0
        · simp [nuevaLatencia, hz, hl0]
        · simp [nuevaLatencia, hz, hl0]
          constructor
          · ring_nf
          · intro a ha
            by_cases hx : a.session_token = tk <;> simp [hx]
            ring_nf
  rw [hs2]
  refine ⟨?_, rfl⟩
  exact find?_map_update st.sesiones tk _ s hfind htok

/-- A session with a stored latency average of 10 ms. -/
def sesionLatenciaEj : SesionRA :=
  { id := 5, estudiante := 2, practica := none, session_token := "token-lat",
    dispositivo_ra := "Meta Quest", estado := .activa, fecha_inicio := 0,
    fecha_ultima_actividad := 90, fecha_fin := none,
    total_datos_recibidos := 3, latencia_promedio := 10 }

/-- Database holding just that session. -/
def estadoRALatEj : RAState := { sesiones := [sesionLatenciaEj], eventos := [] }

/-- Witness for C9's amended theorem: a heartbeat with sample 4 on a
stored average of 10. -/
theorem heartbeat_suavizado_latencia_witness :
    estadoRALatEj.sesiones.find? (fun x => decide (x.session_token = "token-lat"))
      = some sesionLatenciaEj ∧
    ((heartbeat_ra "token-lat" (some 4) 100 estadoRALatEj).2.sesiones.find?
        (fun x => decide (x.session_token = "token-lat"))
      = some { sesionLatenciaEj with
               fecha_ultima_actividad := 100,
               latencia_promedio :=
                 nuevaLatencia (some 4) sesionLatenciaEj.latencia_promedio } ∧
     (heartbeat_ra "token-lat" (some 4) 100 estadoRALatEj).1
      = .ok true (pyRound2 (nuevaLatencia (some 4) sesionLatenciaEj.latencia_promedio))) :=
  ⟨by simp [estadoRALatEj, sesionLatenciaEj],
   heartbeat_suavizado_latencia "token-lat" (some 4) 100 estadoRALatEj
     sesionLatenciaEj (by simp [estadoRALatEj, sesionLatenciaEj])⟩

/-- Claim C9, counterexample: a reported latency sample of exactly 0 is
falsy in Python and is ignored: with a stored average of 10 the claim
demands `0.8·10 + 0.2·0 = 8`, but the code leaves the stored average at
10. -/
theorem heartbeat_ignora_latencia_cero :
    sesionLatenciaEj.latencia_promedio = 10 ∧
    (0.8 : ℚ) * 10 + 0.2 * 0 = 8 ∧
    (heartbeat_ra "token-lat" (some 0) 100 estadoRALatEj).2.sesiones
      = [{ sesionLatenciaEj with fecha_ultima_actividad := 100 }] ∧
    ({ sesionLatenciaEj with fecha_ultima_actividad := 100 }).latencia_promedio
      ≠ 8 := by
  refine ⟨rfl, by norm_num, ?_, by norm_num [sesionLatenciaEj]⟩
  norm_num [heartbeat_ra, estadoRALatEj, sesionLatenciaEj]

/-- After `conectar_ra` closes the student's live sessions, none of the
mapped rows is still live for that student. -/
theorem filter_vivas_cerradas (e : Nat) (ahora : ℚ) (l : List SesionRA) :
    ((l.map (fun s =>
        if s.estudiante = e ∧
           (s.estado = .conectando ∨ s.estado = .activa ∨ s.estado = .pausada)
        then { s with estado := .desconectada, fecha_fin := some ahora }
        else s)).filter (fun s =>
          decide (s.estudiante = e) &&
          decide (s.estado = .conectando ∨ s.estado = .activa ∨ s.estado = .pausada)))
      = [] := by
  rw [List.filter_eq_nil_iff]
  intro a ha
  obtain ⟨y, hy, rfl⟩ := List.mem_map.mp ha
  by_cases hcond : y.estudiante = e ∧
      (y.estado = .conectando ∨ y.estado = .activa ∨ y.estado = .pausada)
  · simp [hcond]
  · rw [if_neg hcond]
    simpa using hcond

/-- Claim C10 (amended): opening an AR session first marks every existing
session of the student whose state is in {conectando, activa, pausada}
as `desconectada` (stamping its end timestamp) and then appends the new
session in state `activa`; hence immediately after a successful connect
the student has exactly one session in a live state (conectando /
activa / pausada) — sessions in state `error` are not touched. -/
theorem conectar_ra_sesion_unica_viva (e : Nat) (pr : Option Nat)
    (disp : String) (nid : Nat) (tok : String) (ahora : ℚ) (st : RAState) :
    (conectar_ra e pr disp nid tok ahora st).1.sesiones.filter (fun s =>
        decide (s.estudiante = e) &&
        decide (s.estado = .conectando ∨ s.estado = .activa ∨ s.estado = .pausada))
      = [(conectar_ra e pr disp nid tok ahora st).2] ∧
    (conectar_ra e pr disp nid tok ahora st).2.estado = .activa ∧
    (conectar_ra e pr disp nid tok ahora st).1.sesiones
      = st.sesiones.map (fun s =>
          if s.estudiante = e ∧
             (s.estado = .conectando ∨ s.estado = .activa ∨ s.estado = .pausada)
          then { s with estado := .desconectada, fecha_fin := some ahora }
          else s) ++ [(conectar_ra e pr disp nid tok ahora st).2] := by
  refine ⟨?_, rfl, rfl⟩
  show ((st.sesiones.map (fun s =>
      if s.estudiante = e ∧
         (s.estado = .conectando ∨ s.estado = .activa ∨ s.estado = .pausada)
      then { s with estado := .desconectada, fecha_fin := some ahora }
      else s)) ++ [(conectar_ra e pr disp nid tok ahora st).2]).filter (fun s =>
        decide (s.estudiante = e) &&
        decide (s.estado = .conectando ∨ s.estado = .activa ∨ s.estado = .pausada))
    = [(conectar_ra e pr disp nid tok ahora st).2]
  rw [List.filter_append, filter_vivas_cerradas]
  simp [conectar_ra]

/-- A session of student 1 stuck in state `error`. -/
def sesionErrorEj : SesionRA :=
  { id := 1, estudiante := 1, practica := none, session_token := "token-err",
    dispositivo_ra := "Meta Quest", estado := .error, fecha_inicio := 0,
    fecha_ultima_actividad := 0, fecha_fin := none,
    total_datos_recibidos := 0, latencia_promedio := 0 }

/-- Claim C10, counterexample: a session in state `error` is in a
non-disconnected state but is not closed by `conectar_ra`, so right
after a successful connect the student has TWO sessions whose state is
not `desconectada`, not exactly one. -/
theorem conectar_ra_no_desconecta_error :
    sesionErrorEj.estado ≠ EstadoRA.desconectada ∧
    ((conectar_ra 1 none "HoloLens 2" 2 "token-nuevo" 50
        { sesiones := [sesionErrorEj], eventos := [] }).1.sesiones.filter
      (fun s => decide (s.estudiante = 1) &&
                decide (¬ s.estado = EstadoRA.desconectada))).length = 2 := by
  constructor
  · decide
  · decide
